import Mathlib

/-!
Verification development for the `my_app` API gateway (Go sources).

The definitions below are a shallow embedding of the gateway's
request-handling pipeline:

* the circuit breaker used by `api-gateway/proxy.go` (`NewProxyClient`
  configures the `github.com/sony/gobreaker` library: `MaxRequests = 1`,
  `Interval = 10s`, `Timeout = 30s`, trip after 3 consecutive failures);
  the breaker state machine is the library's algorithm, embedded directly;
* the buffered JSON proxy `ProxyClient.ProxyJSON` (`api-gateway/proxy.go`);
* the Eureka instance-selection logic of `ResolveBaseURL`
  (`api-gateway/internal/eureka/client.go`);
* the `/agent`, `/agent/stream`, `/health` and `/admin/circuit-breaker`
  handlers of `internal/server/handlers.go` and the middleware chain of
  `cmd/api-gateway/main.go`;
* the per-IP token-bucket rate limiter (`middleware.RateLimiter`, built on
  `golang.org/x/time/rate` with rate 100/s, burst 200);
* the relevant parts of `config.Load`.

Time is modelled as rational seconds; byte strings as `List Nat`.
`float64` token arithmetic of `x/time/rate` is modelled by exact rational
arithmetic, and Go `uint32`/`uint64` counters by `Nat` (no claim below
involves counter overflow).
-/

namespace ApiGateway

/-! ## Circuit breaker (gobreaker, as configured in `NewProxyClient`) -/

/-- Breaker phase: gobreaker's `StateClosed`, `StateOpen`, `StateHalfOpen`. -/
inductive BreakerState where
  | closed
  | opened
  | halfOpen
deriving DecidableEq, Repr

/-- gobreaker's `Counts` record. -/
structure Counts where
  requests : Nat
  totalSuccesses : Nat
  totalFailures : Nat
  consecutiveSuccesses : Nat
  consecutiveFailures : Nat
deriving DecidableEq, Repr

/-- Zeroed counts (gobreaker `Counts.clear`). -/
def Counts.zero : Counts := ⟨0, 0, 0, 0, 0⟩

/-- gobreaker `Counts.onRequest`. -/
def Counts.onRequest (c : Counts) : Counts :=
  { c with requests := c.requests + 1 }

/-- gobreaker `Counts.onSuccess`. -/
def Counts.onSuccess (c : Counts) : Counts :=
  { c with totalSuccesses := c.totalSuccesses + 1,
           consecutiveSuccesses := c.consecutiveSuccesses + 1,
           consecutiveFailures := 0 }

/-- gobreaker `Counts.onFailure`. -/
def Counts.onFailure (c : Counts) : Counts :=
  { c with totalFailures := c.totalFailures + 1,
           consecutiveFailures := c.consecutiveFailures + 1,
           consecutiveSuccesses := 0 }

/-- The gobreaker settings relevant to the embedded state machine. -/
structure Settings where
  maxRequests : Nat
  interval : ℚ
  timeout : ℚ
  readyToTrip : Counts → Bool

/-- The settings installed by `NewProxyClient` in `api-gateway/proxy.go`:
`MaxRequests: 1`, `Interval: 10s`, `Timeout: 30s`, and
`ReadyToTrip: counts.ConsecutiveFailures >= 3`. -/
def proxySettings : Settings :=
  { maxRequests := 1
    interval := 10
    timeout := 30
    readyToTrip := fun c => decide (3 ≤ c.consecutiveFailures) }

/-- The breaker's mutable state. `expiry = none` models Go's zero `time.Time`
(no pending expiry). -/
structure Breaker where
  state : BreakerState
  generation : Nat
  counts : Counts
  expiry : Option ℚ
deriving DecidableEq, Repr

/-- gobreaker `toNewGeneration`: bump the generation, clear the counts, and
set the phase-expiry timer for the (unchanged) current phase. -/
def Breaker.toNewGeneration (s : Settings) (b : Breaker) (now : ℚ) : Breaker :=
  { state := b.state
    generation := b.generation + 1
    counts := Counts.zero
    expiry :=
      match b.state with
      | .closed => if s.interval = 0 then none else some (now + s.interval)
      | .opened => some (now + s.timeout)
      | .halfOpen => none }

/-- gobreaker `setState`: no-op on the current phase, otherwise switch phase
and start a new generation. -/
def Breaker.setState (s : Settings) (b : Breaker) (st : BreakerState) (now : ℚ) : Breaker :=
  if b.state = st then b
  else Breaker.toNewGeneration s { b with state := st } now

/-- gobreaker `currentState`: roll the closed-state counting generation when
its interval has elapsed, and move OPEN to HALF_OPEN when the cooldown has
elapsed. In the `opened` phase the expiry is always set; a `none` there
stands for Go's zero time, which is before any present instant. -/
def Breaker.currentState (s : Settings) (b : Breaker) (now : ℚ) : Breaker :=
  match b.state with
  | .closed =>
      match b.expiry with
      | some e => if e < now then b.toNewGeneration s now else b
      | none => b
  | .opened =>
      match b.expiry with
      | some e => if e < now then b.setState s .halfOpen now else b
      | none => b.setState s .halfOpen now
  | .halfOpen => b

/-- gobreaker's sentinel errors `ErrOpenState` and `ErrTooManyRequests`. -/
inductive BreakerError where
  | openState
  | tooManyRequests
deriving DecidableEq, Repr

/-- gobreaker `beforeRequest`: reject while OPEN; in HALF_OPEN reject once
`maxRequests` probes are already counted; otherwise admit the call and
return the current generation. -/
def Breaker.beforeRequest (s : Settings) (b : Breaker) (now : ℚ) :
    Breaker × Except BreakerError Nat :=
  let b := b.currentState s now
  match b.state with
  | .opened => (b, .error .openState)
  | .halfOpen =>
      if s.maxRequests ≤ b.counts.requests then (b, .error .tooManyRequests)
      else ({ b with counts := b.counts.onRequest }, .ok b.generation)
  | .closed => ({ b with counts := b.counts.onRequest }, .ok b.generation)

/-- gobreaker `onSuccess`. -/
def Breaker.onSuccess (s : Settings) (b : Breaker) (now : ℚ) : Breaker :=
  match b.state with
  | .closed => { b with counts := b.counts.onSuccess }
  | .halfOpen =>
      let b := { b with counts := b.counts.onSuccess }
      if s.maxRequests ≤ b.counts.consecutiveSuccesses then b.setState s .closed now else b
  | .opened => b

/-- gobreaker `onFailure`. -/
def Breaker.onFailure (s : Settings) (b : Breaker) (now : ℚ) : Breaker :=
  match b.state with
  | .closed =>
      let b := { b with counts := b.counts.onFailure }
      if s.readyToTrip b.counts then b.setState s .opened now else b
  | .halfOpen => b.setState s .opened now
  | .opened => b

/-- gobreaker `afterRequest`: a completion whose generation no longer matches
is discarded. -/
def Breaker.afterRequest (s : Settings) (b : Breaker) (before : Nat) (success : Bool)
    (now : ℚ) : Breaker :=
  let b := b.currentState s now
  if b.generation ≠ before then b
  else if success then b.onSuccess s now else b.onFailure s now

/-- gobreaker `NewCircuitBreaker`: zero value (CLOSED, generation 0) advanced
to its first generation at creation time. -/
def newBreaker (s : Settings) (now : ℚ) : Breaker :=
  Breaker.toNewGeneration s ⟨.closed, 0, Counts.zero, none⟩ now

/-- gobreaker `State.String()`. -/
def stateString : BreakerState → String
  | .closed => "closed"
  | .halfOpen => "half-open"
  | .opened => "open"

/-! ## The buffered proxy `ProxyClient.ProxyJSON` (`api-gateway/proxy.go`) -/

/-- Behaviour of the upstream for one dispatched call: either the transport
fails (`client.Do` returns an error), or a response with a status code and a
body arrives. -/
inductive Upstream where
  | transportError
  | response (status : Nat) (body : List Nat)
deriving DecidableEq, Repr

/-- Whether the breaker treats the upstream outcome as a failure: a transport
error, or a response with status ≥ 500 (`proxy.go` wraps 5xx responses in an
error inside `cb.Execute`). -/
def isFailure : Upstream → Bool
  | .transportError => true
  | .response st _ => decide (500 ≤ st)

/-- Body of the response the gateway writes to the original caller. -/
inductive RespBody where
  | text (s : String)
  | bytes (b : List Nat)
  | snapshot (state : String) (counts : Counts)
deriving DecidableEq, Repr

/-- Message written by `ProxyJSON` for `gobreaker.ErrOpenState`. -/
def openStateMsg : String := "Service Unavailable (Circuit Breaker Open)"

/-- Message written by `ProxyJSON` for `gobreaker.ErrTooManyRequests`. -/
def halfOpenLimitMsg : String := "Service Unavailable (Circuit Breaker Half-Open Limit)"

/-- Message prefix of the 502 path of `ProxyJSON` (the Go code appends the
transport error's text). -/
def upstreamFailedMsg : String := "Upstream failed"

/-- Outcome of one `ProxyJSON` (or `ProxyStream`) call. `contactedUpstream`
records whether `client.Do` was invoked for this attempt. -/
structure ProxyResult where
  breaker : Breaker
  status : Nat
  body : RespBody
  contactedUpstream : Bool
deriving DecidableEq, Repr

/-- `ProxyClient.ProxyJSON` (`api-gateway/proxy.go`), for a call admitted at
time `tBefore` and completing at time `tAfter`:
breaker rejections become 503 with the distinguishing message; a transport
error becomes 502 and a recorded failure; a response is forwarded with the
upstream's own status and body, recorded as a failure iff its status is ≥ 500. -/
def proxyJSON (s : Settings) (b : Breaker) (tBefore tAfter : ℚ) (up : Upstream) :
    ProxyResult :=
  match Breaker.beforeRequest s b tBefore with
  | (b1, .error .openState) => ⟨b1, 503, .text openStateMsg, false⟩
  | (b1, .error .tooManyRequests) => ⟨b1, 503, .text halfOpenLimitMsg, false⟩
  | (b1, .ok gen) =>
      match up with
      | .transportError =>
          ⟨Breaker.afterRequest s b1 gen false tAfter, 502, .text upstreamFailedMsg, true⟩
      | .response status body =>
          ⟨Breaker.afterRequest s b1 gen (decide (status < 500)) tAfter, status,
            .bytes body, true⟩

/-- Modelled from the spec: `internal/proxy.Client.ProxyStream` is not under
`src/` (only its callers in `internal/server/handlers.go` and
`cmd/api-gateway/main.go` are). Per spec §4.4 it takes the same
target/method/body inputs as the buffered proxy and executes through the
*same* circuit breaker as buffered calls; a stream that fails outright counts
as a breaker failure, and breaker rejections are surfaced as 503 like the
buffered path (spec §7). On success the upstream status is forwarded and the
chunks are streamed to the caller. -/
def proxyStream (s : Settings) (b : Breaker) (tBefore tAfter : ℚ) (up : Upstream) :
    ProxyResult :=
  match Breaker.beforeRequest s b tBefore with
  | (b1, .error .openState) => ⟨b1, 503, .text openStateMsg, false⟩
  | (b1, .error .tooManyRequests) => ⟨b1, 503, .text halfOpenLimitMsg, false⟩
  | (b1, .ok gen) =>
      match up with
      | .transportError =>
          ⟨Breaker.afterRequest s b1 gen false tAfter, 502, .text upstreamFailedMsg, true⟩
      | .response status chunks =>
          ⟨Breaker.afterRequest s b1 gen (decide (status < 500)) tAfter, status,
            .bytes chunks, true⟩

/-- A sequence of buffered-proxy calls, each instantaneous (admitted and
completed at the same instant), threading the breaker state. -/
def callSeq (s : Settings) : Breaker → List (ℚ × Upstream) → Breaker × List ProxyResult
  | b, [] => (b, [])
  | b, (t, up) :: rest =>
      let r := proxyJSON s b t t up
      let (bF, rs) := callSeq s r.breaker rest
      (bF, r :: rs)

/-! ## String helpers shared by the Go sources -/

/-- Go `strings.TrimRight(s, "/")`: remove every trailing `'/'`. -/
def trimRightSlash (s : String) : String :=
  String.mk (s.data.reverse.dropWhile (fun c => c == '/')).reverse

/-- ASCII white space as in Go's `asciiSpace` table (`'\t'`, `'\n'`, `'\v'`,
`'\f'`, `'\r'`, `' '`). -/
def isGoSpaceChar (c : Char) : Bool :=
  c == ' ' || c == '\t' || c == '\n' || c == '\x0b' || c == '\x0c' || c == '\r'

/-- Go `strings.TrimSpace` restricted to ASCII white space (the Unicode
space classes beyond ASCII are outside this model's alphabet). -/
def trimSpaceStr (s : String) : String :=
  String.mk ((s.data.dropWhile isGoSpaceChar).reverse.dropWhile isGoSpaceChar).reverse

/-- ASCII white space bytes, the `asciiSpace` table of Go's `bytes` package. -/
def isGoSpaceByte (c : Nat) : Bool :=
  c == 9 || c == 10 || c == 11 || c == 12 || c == 13 || c == 32

/-- Go `bytes.TrimSpace` on a byte string, restricted to ASCII white space
(multi-byte Unicode space sequences are outside this model's alphabet). -/
def goTrimSpaceBytes (b : List Nat) : List Nat :=
  ((b.dropWhile isGoSpaceByte).reverse.dropWhile isGoSpaceByte).reverse

/-- Whether a string's last character is `'/'` (so that appending a
path that starts with `'/'` would create a doubled slash at the join). -/
def endsWithSlash (s : String) : Bool :=
  s.data.getLast? == some '/'

/-- The byte string `"{}"` substituted by the handlers for blank bodies. -/
def jsonEmptyObject : List Nat := [123, 125]

/-! ## Eureka resolution (`internal/eureka/client.go`, `ResolveBaseURL`) -/

/-- The `port` object of a Eureka instance (`{"$": value}`), Go field
`Port.Value int`. -/
structure EurekaPort where
  value : Int
deriving DecidableEq, Repr

/-- `EurekaInstance` as decoded from the registry's JSON. -/
structure EurekaInstance where
  status : String
  homePageURL : String
  ipAddr : String
  port : EurekaPort
deriving DecidableEq, Repr

/-- ASCII case folding on a character's code point (uppercase letters map to
their lowercase counterparts). -/
def foldCode (c : Char) : Nat :=
  if 65 ≤ c.toNat ∧ c.toNat ≤ 90 then c.toNat + 32 else c.toNat

/-- Go `strings.EqualFold`, restricted to ASCII case folding (the statuses
compared are ASCII; full Unicode simple folding is abstracted). -/
def equalFold (a b : String) : Bool :=
  a.data.map foldCode == b.data.map foldCode

/-- The errors `ResolveBaseURL` can return from a successfully parsed
response: `no instances for ...` and `instance missing url fields for ...`. -/
inductive ResolveError where
  | noInstances
  | missingURLFields
deriving DecidableEq, Repr

/-- The selection loop of `ResolveBaseURL`: first instance whose status is
`UP` (case-insensitive), else the first instance, else none. -/
def chooseInstance (l : List EurekaInstance) : Option EurekaInstance :=
  match l.find? (fun inst => equalFold inst.status "UP") with
  | some inst => some inst
  | none => l.head?

/-- The body of `ResolveBaseURL` after the registry response has been parsed
into an instance list: choose an instance, then prefer its (slash-trimmed)
home-page URL, else synthesize `http://{ip}:{port}`, else fail. -/
def resolveBaseURL (l : List EurekaInstance) : Except ResolveError String :=
  match chooseInstance l with
  | none => .error .noInstances
  | some inst =>
      if inst.homePageURL ≠ "" then .ok (trimRightSlash inst.homePageURL)
      else if inst.ipAddr ≠ "" ∧ inst.port.value ≠ 0 then
        .ok ("http://" ++ inst.ipAddr ++ ":" ++ toString inst.port.value)
      else .error .missingURLFields

/-- The resolution outcome as the route handlers see it: `some u` when
`ResolveBaseURL` returned `(u, nil)`, `none` on any resolution error
(parse errors and transport errors also yield `none`). -/
def resolutionOutcome (l : List EurekaInstance) : Option String :=
  match resolveBaseURL l with
  | .ok u => some u
  | .error _ => none

/-! ## Configuration (`internal/config`, `Load`) -/

/-- The `Config` fields relevant to routing (from `config.Load`). -/
structure GatewayConfig where
  eurekaServerURL : String
  agentAppName : String
  agentBaseURL : String
deriving DecidableEq, Repr

/-- `config.getenv(key, def)`: the trimmed environment value, or the default
when that is empty. The process environment is modelled as a function. -/
def getenvDefault (env : String → String) (key dflt : String) : String :=
  let v := trimSpaceStr (env key)
  if v = "" then dflt else v

/-- `config.Load`, restricted to the routing-relevant fields: the Eureka URL
and the static agent fallback URL are trailing-slash-trimmed, and the agent
fields fall back to the legacy `FLASK_*` variables. -/
def configLoad (env : String → String) : GatewayConfig :=
  let appName0 := getenvDefault env "AGENT_APP_NAME" ""
  let agentAppName :=
    if appName0 = "" then getenvDefault env "FLASK_APP_NAME" "AGENT-SERVICE" else appName0
  let base0 := trimRightSlash (getenvDefault env "AGENT_BASE_URL" "")
  let agentBaseURL :=
    if base0 = "" then trimRightSlash (getenvDefault env "FLASK_BASE_URL" "") else base0
  { eurekaServerURL :=
      trimRightSlash (getenvDefault env "EUREKA_SERVER_URL" "http://localhost:8761/eureka")
    agentAppName := agentAppName
    agentBaseURL := agentBaseURL }

/-! ## Rate limiter (`internal/middleware`, built on `golang.org/x/time/rate`) -/

/-- The mutable fields of one `rate.Limiter` token bucket. `last = 0` at
creation models Go's zero time (the first advance then fills the bucket to
its burst). -/
structure LimiterState where
  tokens : ℚ
  last : ℚ
deriving DecidableEq, Repr

/-- Rate and burst of a `middleware.RateLimiter` (`rate.Limit` is a float;
here exact). -/
structure RateLimiterCfg where
  r : ℚ
  b : Nat
deriving DecidableEq, Repr

/-- The limiter installed by `cmd/api-gateway/main.go`:
`middleware.NewRateLimiter(100, 200)`. -/
def limiterRL : RateLimiterCfg := ⟨100, 200⟩

/-- `rate.Limiter.advance`: tokens accumulated at time `t`, clamped to the
burst; a `t` before `last` contributes no elapsed time. -/
def limiterAdvance (cfg : RateLimiterCfg) (s : LimiterState) (t : ℚ) : ℚ :=
  let last := if t < s.last then t else s.last
  let tokens := s.tokens + cfg.r * (t - last)
  if (cfg.b : ℚ) < tokens then (cfg.b : ℚ) else tokens

/-- `rate.Limiter.Allow` (that is, `reserveN(t, 1, 0)`): consume one token if
one is available now, else change nothing and refuse. The float64 and
nanosecond roundings of the library are modelled by exact rational
arithmetic. -/
def limiterAllow (cfg : RateLimiterCfg) (s : LimiterState) (t : ℚ) : Bool × LimiterState :=
  let tokens := limiterAdvance cfg s t
  if 1 ≤ cfg.b ∧ 0 ≤ tokens - 1 then (true, ⟨tokens - 1, t⟩) else (false, s)

/-- Run `Allow` on one bucket for a chronological list of request instants,
returning each verdict and the final bucket state. -/
def runAllows (cfg : RateLimiterCfg) : LimiterState → List ℚ → List Bool × LimiterState
  | s, [] => ([], s)
  | s, t :: rest =>
      let step := limiterAllow cfg s t
      let tail := runAllows cfg step.2 rest
      (step.1 :: tail.1, tail.2)

/-- Request instants spaced 20 ms apart starting at `t`. -/
def steadyTimes : ℚ → Nat → List ℚ
  | _, 0 => []
  | t, n + 1 => t :: steadyTimes (t + 1 / 50) n

/-! ## HTTP surface: requests, the mux handlers, and the middleware chain -/

/-- An inbound HTTP request, with the fields the gateway inspects.
`xForwardedFor = ""` means the header is absent. -/
structure Request where
  method : String
  path : String
  xForwardedFor : String
  remoteAddr : String
  body : List Nat
deriving DecidableEq, Repr

/-- First comma-separated entry of an `X-Forwarded-For` value, trimmed
(`strings.Split(xfwd, ",")[0]` then `strings.TrimSpace`). -/
def firstForwardedEntry (s : String) : String :=
  trimSpaceStr (String.mk (s.data.takeWhile (fun c => c ≠ ',')))

/-- Host part of a `host:port` transport address. This abstracts the Go
standard library's `net.SplitHostPort`: the text before the last `':'` when
one is present, else (as in `getIP`'s error fallback) the address unchanged. -/
def splitHostPortHost (s : String) : String :=
  if s.data.contains ':' then
    String.mk ((s.data.reverse.dropWhile (fun c => c ≠ ':')).drop 1).reverse
  else s

/-- `middleware.getIP`: prefer the first `X-Forwarded-For` entry, else the
host of the transport peer address. -/
def getIP (req : Request) : String :=
  if req.xForwardedFor ≠ "" then firstForwardedEntry req.xForwardedFor
  else splitHostPortHost req.remoteAddr

/-- Body written by the `/health` handler. -/
def healthBody : String := "\x7b\"status\":\"ok\"\x7d"

/-- JSON error body written by the rate-limit middleware with its 429. -/
def rateLimitBody : String := "\x7b\"error\":\"Too Many Requests\"\x7d"

/-- Message of the 500 written by the `/agent` and `/agent/stream` handlers
when no base URL is available. -/
def noBaseMsg : String := "no agent service base url"

/-- Stands for the JSON service descriptor written by the `/` handler (its
exact content is not claim-relevant). -/
def rootInfoBody : String := "API Gateway service descriptor"

/-- The base URL the `/agent` handlers end up with: the statically
configured URL, overwritten by the registry resolution when it succeeded. -/
def effectiveBase (staticURL : String) (resolved : Option String) : String :=
  match resolved with
  | some u => u
  | none => staticURL

/-- What the `/agent` handler decides to do after resolution: fail with the
no-base-URL 500, or dispatch to `base + "/recommendations"` with the (blank
bodies coerced to `"{}"`) forwarded body. -/
inductive AgentStep where
  | noBaseURL
  | dispatch (target : String) (fwd : List Nat)
deriving DecidableEq, Repr

/-- The resolution/body logic shared by the `/agent` and `/agent/stream`
handlers in `internal/server/handlers.go` (with the respective path suffix). -/
def agentPlanAt (suffix : String) (staticURL : String) (resolved : Option String)
    (body : List Nat) : AgentStep :=
  let base := effectiveBase staticURL resolved
  if base = "" then .noBaseURL
  else .dispatch (base ++ suffix)
    (if (goTrimSpaceBytes body).length = 0 then jsonEmptyObject else body)

/-- The `/agent` handler's plan (`base + "/recommendations"`). -/
def agentPlan (staticURL : String) (resolved : Option String) (body : List Nat) : AgentStep :=
  agentPlanAt "/recommendations" staticURL resolved body

/-- Outcome of one `/agent` or `/agent/stream` request once it reached the
route handler. `target`/`sentBody` are `some` exactly when the proxy was
invoked, with the URL and body handed to it. -/
structure AgentResult where
  breaker : Breaker
  status : Nat
  respBody : RespBody
  target : Option String
  sentBody : Option (List Nat)
  contactedUpstream : Bool
deriving DecidableEq, Repr

/-- The `/agent` route handler (`internal/server/handlers.go`): resolve,
fall back to the static base URL, 500 when the effective base is empty,
otherwise dispatch through `ProxyJSON`. -/
def agentHandler (s : Settings) (b : Breaker) (staticURL : String)
    (resolved : Option String) (body : List Nat) (tBefore tAfter : ℚ)
    (up : Upstream) : AgentResult :=
  match agentPlan staticURL resolved body with
  | .noBaseURL => ⟨b, 500, .text noBaseMsg, none, none, false⟩
  | .dispatch target fwd =>
      let r := proxyJSON s b tBefore tAfter up
      ⟨r.breaker, r.status, r.body, some target, some fwd, r.contactedUpstream⟩

/-- The `/agent/stream` route handler: same resolution and body logic, then
`ProxyStream` to `base + "/recommendations/stream"`. -/
def agentStreamHandler (s : Settings) (b : Breaker) (staticURL : String)
    (resolved : Option String) (body : List Nat) (tBefore tAfter : ℚ)
    (up : Upstream) : AgentResult :=
  match agentPlanAt "/recommendations/stream" staticURL resolved body with
  | .noBaseURL => ⟨b, 500, .text noBaseMsg, none, none, false⟩
  | .dispatch target fwd =>
      let r := proxyStream s b tBefore tAfter up
      ⟨r.breaker, r.status, r.body, some target, some fwd, r.contactedUpstream⟩

/-- The gateway's shared mutable state: the single breaker held by the one
`proxy.Client` built in `main`, and the rate limiter's bucket map. -/
structure GatewayState where
  breaker : Breaker
  buckets : List (String × LimiterState)
deriving DecidableEq, Repr

/-- Look up a client's bucket in the map. -/
def lookupBucket : List (String × LimiterState) → String → Option LimiterState
  | [], _ => none
  | (k, v) :: rest, ip => if k = ip then some v else lookupBucket rest ip

/-- Store a client's bucket, replacing any previous entry. -/
def insertBucket : List (String × LimiterState) → String → LimiterState →
    List (String × LimiterState)
  | [], ip, v => [(ip, v)]
  | (k, w) :: rest, ip, v =>
      if k = ip then (k, v) :: rest else (k, w) :: insertBucket rest ip v

/-- `RateLimiter.getLimiter`: the client's bucket, lazily created fresh. -/
def bucketOf (gs : GatewayState) (ip : String) : LimiterState :=
  (lookupBucket gs.buckets ip).getD ⟨0, 0⟩

/-- One inbound request together with the environment behaviour during it:
the instant of the rate-limit check and breaker admission (`now`), the
instant the proxied call completes (`tAfter`), the resolution outcome, and
the upstream's behaviour if it is contacted. -/
structure StepInput where
  req : Request
  now : ℚ
  tAfter : ℚ
  resolved : Option String
  up : Upstream
deriving DecidableEq, Repr

/-- What the gateway writes back for one request. -/
structure StepOutput where
  status : Nat
  body : RespBody
  contactedUpstream : Bool
deriving DecidableEq, Repr

/-- The mux routing of `internal/server/handlers.go`, restricted to the
routes the claims mention; remaining paths fall through to the `/` handler
(service descriptor at `/`, 404 elsewhere). -/
def routeRequest (cfg : GatewayConfig) (gs : GatewayState) (inp : StepInput) :
    GatewayState × StepOutput :=
  if inp.req.path = "/health" then
    (gs, ⟨200, .text healthBody, false⟩)
  else if inp.req.path = "/admin/circuit-breaker" then
    (gs, ⟨200, .snapshot (stateString gs.breaker.state) gs.breaker.counts, false⟩)
  else if inp.req.path = "/agent" then
    if inp.req.method ≠ "POST" then (gs, ⟨405, .text "method not allowed", false⟩)
    else
      let r := agentHandler proxySettings gs.breaker cfg.agentBaseURL inp.resolved
        inp.req.body inp.now inp.tAfter inp.up
      ({ gs with breaker := r.breaker }, ⟨r.status, r.respBody, r.contactedUpstream⟩)
  else if inp.req.path = "/agent/stream" then
    if inp.req.method ≠ "POST" then (gs, ⟨405, .text "method not allowed", false⟩)
    else
      let r := agentStreamHandler proxySettings gs.breaker cfg.agentBaseURL inp.resolved
        inp.req.body inp.now inp.tAfter inp.up
      ({ gs with breaker := r.breaker }, ⟨r.status, r.respBody, r.contactedUpstream⟩)
  else if inp.req.path = "/" then (gs, ⟨200, .text rootInfoBody, false⟩)
  else (gs, ⟨404, .text "404 page not found", false⟩)

/-- One request through the full chain of `cmd/api-gateway/main.go`:
rate-limit middleware first (`RateLimiter.Middleware`), then the mux.
The logging middleware does not alter responses and is omitted. -/
def gatewayStep (cfg : GatewayConfig) (gs : GatewayState) (inp : StepInput) :
    GatewayState × StepOutput :=
  let ip := getIP inp.req
  let res := limiterAllow limiterRL (bucketOf gs ip) inp.now
  let gs' : GatewayState := { gs with buckets := insertBucket gs.buckets ip res.2 }
  if res.1 then routeRequest cfg gs' inp
  else (gs', ⟨429, .text rateLimitBody, false⟩)

/-- Run a chronological list of requests through the gateway. -/
def runGateway (cfg : GatewayConfig) : GatewayState → List StepInput →
    GatewayState × List StepOutput
  | gs, [] => (gs, [])
  | gs, inp :: rest =>
      let (gs', out) := gatewayStep cfg gs inp
      let (gsF, outs) := runGateway cfg gs' rest
      (gsF, out :: outs)

/-! ## Concrete scenarios used by closed theorems -/

/-- A `POST /agent/stream` request from client `7.7.7.7`. -/
def streamReq : Request := ⟨"POST", "/agent/stream", "7.7.7.7", "", [65]⟩

/-- A `POST /agent` request from client `7.7.7.7`. -/
def bufferedReq : Request := ⟨"POST", "/agent", "7.7.7.7", "", [65]⟩

/-- A `GET /admin/circuit-breaker` request from client `7.7.7.7`. -/
def adminReq : Request := ⟨"GET", "/admin/circuit-breaker", "7.7.7.7", "", []⟩

/-- A mixed-route scenario: two streaming calls whose upstream transport
fails, one buffered call answered 500, then one buffered and one streaming
attempt, then an admin snapshot. -/
def mixedRouteScenario : List StepInput :=
  [⟨streamReq, 1, 1, none, .transportError⟩,
   ⟨streamReq, 2, 2, none, .transportError⟩,
   ⟨bufferedReq, 3, 3, none, .response 500 [42]⟩,
   ⟨bufferedReq, 4, 4, none, .response 200 []⟩,
   ⟨streamReq, 5, 5, none, .response 200 []⟩,
   ⟨adminReq, 6, 6, none, .transportError⟩]

/-- A gateway configuration with a non-empty static agent base URL. -/
def demoCfg : GatewayConfig := ⟨"http://eureka:8761/eureka", "AGENT-SERVICE", "http://agent"⟩

/-- The gateway state at process start (breaker created at time 0, no
buckets yet). -/
def initialState : GatewayState := ⟨newBreaker proxySettings 0, []⟩

/-- A `GET /health` request from client `1.2.3.4`, at time 10. -/
def healthInput : StepInput := ⟨⟨"GET", "/health", "1.2.3.4", "", []⟩, 10, 10, none, .transportError⟩

/-! ## Breaker step lemmas -/

unseal Rat.add Rat.sub Rat.mul Rat.inv

/-- In the CLOSED phase, before the counting interval has elapsed, a failed
instantaneous call increments the failure counters and trips the breaker
exactly when the consecutive-failure threshold (3) is reached. -/
theorem proxyJSON_closed_fail (g rq ts tf cs cf : Nat) (e t : ℚ) (up : Upstream)
    (ht : ¬ e < t) (hup : isFailure up = true) :
    (proxyJSON proxySettings ⟨.closed, g, ⟨rq, ts, tf, cs, cf⟩, some e⟩ t t up).breaker =
      if 3 ≤ cf + 1 then ⟨.opened, g + 1, Counts.zero, some (t + 30)⟩
      else ⟨.closed, g, ⟨rq + 1, ts, tf + 1, 0, cf + 1⟩, some e⟩ := by
  have hbefore : Breaker.beforeRequest proxySettings ⟨.closed, g, ⟨rq, ts, tf, cs, cf⟩, some e⟩ t =
      (⟨.closed, g, ⟨rq + 1, ts, tf, cs, cf⟩, some e⟩, .ok g) := by
    simp [Breaker.beforeRequest, Breaker.currentState, ht, Counts.onRequest]
  have hafter : Breaker.afterRequest proxySettings ⟨.closed, g, ⟨rq + 1, ts, tf, cs, cf⟩, some e⟩
      g false t =
      if 3 ≤ cf + 1 then ⟨.opened, g + 1, Counts.zero, some (t + 30)⟩
      else ⟨.closed, g, ⟨rq + 1, ts, tf + 1, 0, cf + 1⟩, some e⟩ := by
    simp only [Breaker.afterRequest, Breaker.currentState, if_neg ht, ne_eq, not_true_eq_false,
      if_false, Breaker.onFailure, Counts.onFailure, proxySettings, Breaker.setState,
      Breaker.toNewGeneration]
    by_cases h3 : 3 ≤ cf + 1 <;> simp [h3, Breaker.setState, Breaker.toNewGeneration]
  cases up with
  | transportError =>
      simp only [proxyJSON, hbefore, hafter]
  | response st body =>
      have h5 : (500 ≤ st) := by simpa [isFailure] using hup
      have hdec : (decide (st < 500)) = false := by simp; omega
      simp only [proxyJSON, hbefore, hdec, hafter]

/-- In the OPEN phase, before the cooldown has elapsed, a call is rejected
with the open-state 503 and the upstream is not contacted. -/
theorem proxyJSON_open_reject (g : Nat) (c : Counts) (e t tA : ℚ) (up : Upstream)
    (ht : ¬ e < t) :
    proxyJSON proxySettings ⟨.opened, g, c, some e⟩ t tA up =
      ⟨⟨.opened, g, c, some e⟩, 503, .text openStateMsg, false⟩ := by
  have hbefore : Breaker.beforeRequest proxySettings ⟨.opened, g, c, some e⟩ t =
      (⟨.opened, g, c, some e⟩, .error .openState) := by
    simp [Breaker.beforeRequest, Breaker.currentState, ht]
  simp only [proxyJSON, hbefore]

/-- In the CLOSED phase a recorded failure increments the failure counters
and trips the breaker exactly at the consecutive-failure threshold. -/
theorem onFailure_closed (b : Breaker) (hs : b.state = .closed) (t : ℚ) :
    b.onFailure proxySettings t =
      if 3 ≤ b.counts.consecutiveFailures + 1 then
        ⟨.opened, b.generation + 1, Counts.zero, some (t + 30)⟩
      else ⟨.closed, b.generation, b.counts.onFailure, b.expiry⟩ := by
  obtain ⟨st, g, c, e⟩ := b
  cases st with
  | opened => simp at hs
  | halfOpen => simp at hs
  | closed =>
      simp only [Breaker.onFailure, Counts.onFailure, proxySettings, Breaker.setState,
        Breaker.toNewGeneration, decide_eq_true_eq]
      by_cases h3 : 3 ≤ c.consecutiveFailures + 1
      · simp [h3, Counts.onFailure]
      · simp [h3, Counts.onFailure]

/-- In the HALF_OPEN phase a recorded failure reopens the breaker and clears
the counters. -/
theorem onFailure_halfOpen (b : Breaker) (hs : b.state = .halfOpen) (t : ℚ) :
    b.onFailure proxySettings t =
      ⟨.opened, b.generation + 1, Counts.zero, some (t + 30)⟩ := by
  obtain ⟨st, g, c, e⟩ := b
  cases st with
  | opened => simp at hs
  | closed => simp at hs
  | halfOpen =>
      simp [Breaker.onFailure, Breaker.setState, Breaker.toNewGeneration, proxySettings]

/-- In the CLOSED phase a recorded success bumps the success counters and
resets the consecutive-failure counter, staying CLOSED. -/
theorem onSuccess_closed (b : Breaker) (hs : b.state = .closed) (t : ℚ) :
    b.onSuccess proxySettings t =
      ⟨.closed, b.generation, b.counts.onSuccess, b.expiry⟩ := by
  obtain ⟨st, g, c, e⟩ := b
  cases st with
  | opened => simp at hs
  | halfOpen => simp at hs
  | closed => simp [Breaker.onSuccess]

/-- In the HALF_OPEN phase a recorded success closes the breaker (the single
allowed probe meets `MaxRequests`) and clears the counters. -/
theorem onSuccess_halfOpen (b : Breaker) (hs : b.state = .halfOpen) (t : ℚ) :
    b.onSuccess proxySettings t =
      ⟨.closed, b.generation + 1, Counts.zero, some (t + 10)⟩ := by
  obtain ⟨st, g, c, e⟩ := b
  cases st with
  | opened => simp at hs
  | closed => simp at hs
  | halfOpen =>
      simp only [Breaker.onSuccess, Counts.onSuccess, proxySettings]
      rw [if_pos (by omega : 1 ≤ c.consecutiveSuccesses + 1)]
      simp [Breaker.setState, Breaker.toNewGeneration]

/-- C1, counterexample: three consecutive upstream failures (at 1 s, 2 s and
11 s after breaker creation) do NOT transition the breaker CLOSED → OPEN:
the 10 s closed-state `Interval` of the settings in `NewProxyClient` starts a
new counting generation between the second and the third failure, so after
the third consecutive failure the breaker is still CLOSED with a
consecutive-failure count of 1, and a next call still contacts the
upstream. -/
theorem c1_counterexample :
    (callSeq proxySettings (newBreaker proxySettings 0)
        [(1, .transportError), (2, .transportError), (11, .transportError)]).1.state =
      BreakerState.closed ∧
    (callSeq proxySettings (newBreaker proxySettings 0)
        [(1, .transportError), (2, .transportError), (11, .transportError)]).1.counts.consecutiveFailures = 1 ∧
    (proxyJSON proxySettings
        (callSeq proxySettings (newBreaker proxySettings 0)
          [(1, .transportError), (2, .transportError), (11, .transportError)]).1
        12 12 (.response 200 [])).contactedUpstream = true := by
  decide

/-- C1 (amended): starting from a freshly created breaker, after exactly 3
consecutive upstream failures (transport error or 5xx) that all occur within
one closed-state counting interval (10 s from breaker creation), the breaker
transitions CLOSED → OPEN on the third failure — it is still CLOSED after
the first two — and the next call made within the 30 s cooldown window is
rejected with HTTP 503 ("Circuit Breaker Open") without any upstream request
being issued. -/
theorem c1_amended_breaker_trip (t0 t1 t2 t3 t4 : ℚ) (u1 u2 u3 u4 : Upstream)
    (hf1 : isFailure u1 = true) (hf2 : isFailure u2 = true) (hf3 : isFailure u3 = true)
    (h01 : t0 ≤ t1) (h12 : t1 ≤ t2) (h23 : t2 ≤ t3) (h3w : t3 ≤ t0 + 10)
    (h34 : t3 ≤ t4) (h4w : t4 ≤ t3 + 30) :
    (proxyJSON proxySettings (newBreaker proxySettings t0) t1 t1 u1).breaker.state =
      BreakerState.closed ∧
    (proxyJSON proxySettings
        (proxyJSON proxySettings (newBreaker proxySettings t0) t1 t1 u1).breaker
        t2 t2 u2).breaker.state = BreakerState.closed ∧
    (proxyJSON proxySettings
        (proxyJSON proxySettings
          (proxyJSON proxySettings (newBreaker proxySettings t0) t1 t1 u1).breaker
          t2 t2 u2).breaker t3 t3 u3).breaker.state = BreakerState.opened ∧
    (proxyJSON proxySettings
        (proxyJSON proxySettings
          (proxyJSON proxySettings
            (proxyJSON proxySettings (newBreaker proxySettings t0) t1 t1 u1).breaker
            t2 t2 u2).breaker t3 t3 u3).breaker t4 t4 u4) =
      ⟨(proxyJSON proxySettings
          (proxyJSON proxySettings
            (proxyJSON proxySettings (newBreaker proxySettings t0) t1 t1 u1).breaker
            t2 t2 u2).breaker t3 t3 u3).breaker, 503, .text openStateMsg, false⟩ := by
  have hb0 : newBreaker proxySettings t0 =
      (⟨.closed, 1, ⟨0, 0, 0, 0, 0⟩, some (t0 + 10)⟩ : Breaker) := by
    simp [newBreaker, Breaker.toNewGeneration, proxySettings, Counts.zero]
  have hr1 : (proxyJSON proxySettings (newBreaker proxySettings t0) t1 t1 u1).breaker =
      (⟨.closed, 1, ⟨1, 0, 1, 0, 1⟩, some (t0 + 10)⟩ : Breaker) := by
    rw [hb0, proxyJSON_closed_fail 1 0 0 0 0 0 (t0 + 10) t1 u1 (by linarith) hf1]
    norm_num
  have hr2 : (proxyJSON proxySettings
      (proxyJSON proxySettings (newBreaker proxySettings t0) t1 t1 u1).breaker
      t2 t2 u2).breaker =
      (⟨.closed, 1, ⟨2, 0, 2, 0, 2⟩, some (t0 + 10)⟩ : Breaker) := by
    rw [hr1, proxyJSON_closed_fail 1 1 0 1 0 1 (t0 + 10) t2 u2 (by linarith) hf2]
    norm_num
  have hr3 : (proxyJSON proxySettings
      (proxyJSON proxySettings
        (proxyJSON proxySettings (newBreaker proxySettings t0) t1 t1 u1).breaker
        t2 t2 u2).breaker t3 t3 u3).breaker =
      (⟨.opened, 2, Counts.zero, some (t3 + 30)⟩ : Breaker) := by
    rw [hr2, proxyJSON_closed_fail 1 2 0 2 0 2 (t0 + 10) t3 u3 (by linarith) hf3]
    norm_num
  refine ⟨by rw [hr1], by rw [hr2], by rw [hr3], ?_⟩
  rw [hr3, proxyJSON_open_reject 2 Counts.zero (t3 + 30) t4 t4 u4 (by linarith)]

/-- C1 amended-claim witness at concrete instants 0 ≤ 1 ≤ 2 ≤ 3 ≤ 5. -/
theorem c1_amended_witness :
    (proxyJSON proxySettings
        (proxyJSON proxySettings
          (proxyJSON proxySettings (newBreaker proxySettings 0) 1 1 .transportError).breaker
          2 2 .transportError).breaker 3 3 (.response 503 [])).breaker.state =
      BreakerState.opened ∧
    (proxyJSON proxySettings
        (proxyJSON proxySettings
          (proxyJSON proxySettings
            (proxyJSON proxySettings (newBreaker proxySettings 0) 1 1 .transportError).breaker
            2 2 .transportError).breaker 3 3 (.response 503 [])).breaker 5 5
        (.response 200 [])) =
      ⟨(proxyJSON proxySettings
          (proxyJSON proxySettings
            (proxyJSON proxySettings (newBreaker proxySettings 0) 1 1 .transportError).breaker
            2 2 .transportError).breaker 3 3 (.response 503 [])).breaker, 503,
        .text openStateMsg, false⟩ :=
  ⟨(c1_amended_breaker_trip 0 1 2 3 5 .transportError .transportError (.response 503 [])
      (.response 200 []) (by decide) (by decide) (by decide) (by norm_num) (by norm_num)
      (by norm_num) (by norm_num) (by norm_num) (by norm_num)).2.2.1,
   (c1_amended_breaker_trip 0 1 2 3 5 .transportError .transportError (.response 503 [])
      (.response 200 []) (by decide) (by decide) (by decide) (by norm_num) (by norm_num)
      (by norm_num) (by norm_num) (by norm_num) (by norm_num)).2.2.2⟩

/-- C2, counterexample: an admitted call that returns 500 but completes
after the 10 s closed-state interval has rolled over (admitted at 1 s,
completed at 11 s) is forwarded to the caller with the upstream's status and
body, but is NOT counted as a circuit-breaker failure: the completion's
generation no longer matches and gobreaker discards it, leaving every
failure counter at 0. -/
theorem c2_counterexample :
    (proxyJSON proxySettings (newBreaker proxySettings 0) 1 11 (.response 500 [7])).status = 500 ∧
    (proxyJSON proxySettings (newBreaker proxySettings 0) 1 11 (.response 500 [7])).body =
      .bytes [7] ∧
    (proxyJSON proxySettings (newBreaker proxySettings 0) 1 11
        (.response 500 [7])).breaker.state = BreakerState.closed ∧
    (proxyJSON proxySettings (newBreaker proxySettings 0) 1 11
        (.response 500 [7])).breaker.counts.totalFailures = 0 ∧
    (proxyJSON proxySettings (newBreaker proxySettings 0) 1 11
        (.response 500 [7])).breaker.counts.consecutiveFailures = 0 := by
  decide

/-- C2 (amended): for every call the breaker admits, an upstream response is
forwarded to the caller with the upstream's own status and body; provided
the breaker's counting generation is unchanged when the call completes
(no 10 s interval rollover mid-call — otherwise gobreaker records nothing),
a status ≥ 500 is recorded as a breaker failure (incrementing the failure
counters in CLOSED, or reopening from HALF_OPEN; reaching the threshold
trips the breaker and clears the counters), and a status < 500 is recorded
as a breaker success; a status < 500 never increments the failure
counters. -/
theorem c2_amended_forward_and_count (b b1 : Breaker) (g : Nat) (tB tA : ℚ)
    (status : Nat) (body : List Nat)
    (hB : Breaker.beforeRequest proxySettings b tB = (b1, .ok g))
    (hA : Breaker.currentState proxySettings b1 tA = b1) :
    ((proxyJSON proxySettings b tB tA (.response status body)).status = status ∧
      (proxyJSON proxySettings b tB tA (.response status body)).body = .bytes body ∧
      (proxyJSON proxySettings b tB tA (.response status body)).contactedUpstream = true) ∧
    (500 ≤ status →
      (b1.state = .closed →
        if 3 ≤ b1.counts.consecutiveFailures + 1 then
          (proxyJSON proxySettings b tB tA (.response status body)).breaker.state = .opened
        else
          (proxyJSON proxySettings b tB tA (.response status body)).breaker.counts.totalFailures
              = b1.counts.totalFailures + 1 ∧
            (proxyJSON proxySettings b tB tA
                (.response status body)).breaker.counts.consecutiveFailures
              = b1.counts.consecutiveFailures + 1 ∧
            (proxyJSON proxySettings b tB tA (.response status body)).breaker.state = .closed) ∧
      (b1.state = .halfOpen →
        (proxyJSON proxySettings b tB tA (.response status body)).breaker.state = .opened)) ∧
    (status < 500 →
      (b1.state = .closed →
        (proxyJSON proxySettings b tB tA (.response status body)).breaker.counts.totalSuccesses
            = b1.counts.totalSuccesses + 1 ∧
          (proxyJSON proxySettings b tB tA (.response status body)).breaker.state = .closed) ∧
      (proxyJSON proxySettings b tB tA
          (.response status body)).breaker.counts.consecutiveFailures = 0 ∧
      (proxyJSON proxySettings b tB tA (.response status body)).breaker.counts.totalFailures
        ≤ b1.counts.totalFailures) := by
  -- Facts about the admitted `beforeRequest`.
  have hgen : b1.generation = g ∧ b1.state ≠ .opened := by
    unfold Breaker.beforeRequest at hB
    rcases hbc : Breaker.currentState proxySettings b tB with ⟨st, gc, cc, ec⟩
    rw [hbc] at hB
    cases st with
    | closed =>
        simp only [Prod.mk.injEq, Except.ok.injEq] at hB
        obtain ⟨hb1, hg⟩ := hB
        subst hg
        rw [← hb1]
        exact ⟨rfl, by simp⟩
    | opened => simp at hB
    | halfOpen =>
        dsimp only at hB
        by_cases hreq : proxySettings.maxRequests ≤ cc.requests
        · rw [if_pos hreq] at hB; simp at hB
        · rw [if_neg hreq] at hB
          simp only [Prod.mk.injEq, Except.ok.injEq] at hB
          obtain ⟨hb1, hg⟩ := hB
          subst hg
          rw [← hb1]
          exact ⟨rfl, by simp⟩
  obtain ⟨hg, hno⟩ := hgen
  have hJ : proxyJSON proxySettings b tB tA (.response status body) =
      ⟨Breaker.afterRequest proxySettings b1 g (decide (status < 500)) tA, status,
        .bytes body, true⟩ := by
    unfold proxyJSON
    rw [hB]
  have hAfter : Breaker.afterRequest proxySettings b1 g (decide (status < 500)) tA =
      if decide (status < 500) then b1.onSuccess proxySettings tA
      else b1.onFailure proxySettings tA := by
    unfold Breaker.afterRequest
    rw [hA]
    dsimp only
    rw [hg]
    simp
  have hRes : (proxyJSON proxySettings b tB tA (.response status body)).breaker =
      if decide (status < 500) then Breaker.onSuccess proxySettings b1 tA
      else Breaker.onFailure proxySettings b1 tA := by
    rw [hJ]
    exact hAfter
  refine ⟨⟨by rw [hJ], by rw [hJ], by rw [hJ]⟩, ?_, ?_⟩
  · -- 5xx: recorded as a failure
    intro h5
    have hdec : (decide (status < 500)) = false := by simp; omega
    rw [hdec] at hRes
    simp only [Bool.false_eq_true, if_false] at hRes
    constructor
    · intro hs
      by_cases h3 : 3 ≤ b1.counts.consecutiveFailures + 1
      · rw [if_pos h3, hRes, onFailure_closed b1 hs tA, if_pos h3]
      · rw [if_neg h3, hRes, onFailure_closed b1 hs tA, if_neg h3]
        simp [Counts.onFailure]
    · intro hs
      rw [hRes, onFailure_halfOpen b1 hs tA]
  · -- < 500: recorded as a success, failure counters never incremented
    intro h5
    have hdec : (decide (status < 500)) = true := by simpa using h5
    rw [hdec] at hRes
    simp only [if_true] at hRes
    refine ⟨?_, ?_, ?_⟩
    · intro hs
      rw [hRes, onSuccess_closed b1 hs tA]
      simp [Counts.onSuccess]
    · cases hst : b1.state with
      | closed =>
          rw [hRes, onSuccess_closed b1 hst tA]
          simp [Counts.onSuccess]
      | opened => exact absurd hst hno
      | halfOpen =>
          rw [hRes, onSuccess_halfOpen b1 hst tA]
          simp [Counts.zero]
    · cases hst : b1.state with
      | closed =>
          rw [hRes, onSuccess_closed b1 hst tA]
          simp [Counts.onSuccess]
      | opened => exact absurd hst hno
      | halfOpen =>
          rw [hRes, onSuccess_halfOpen b1 hst tA]
          simp [Counts.zero]

/-- C2 amended-claim witness: a fresh breaker, a call admitted at 1 s and
completed at 2 s with a 500 response: forwarded, and counted as the first
consecutive failure. -/
theorem c2_amended_witness :
    ((proxyJSON proxySettings (newBreaker proxySettings 0) 1 2 (.response 500 [9])).status = 500 ∧
      (proxyJSON proxySettings (newBreaker proxySettings 0) 1 2 (.response 500 [9])).body =
        .bytes [9] ∧
      (proxyJSON proxySettings (newBreaker proxySettings 0) 1 2
          (.response 500 [9])).contactedUpstream = true) ∧
    (proxyJSON proxySettings (newBreaker proxySettings 0) 1 2
        (.response 500 [9])).breaker.counts.totalFailures =
      (⟨.closed, 1, ⟨1, 0, 0, 0, 0⟩, some 10⟩ : Breaker).counts.totalFailures + 1 := by
  have h := c2_amended_forward_and_count (newBreaker proxySettings 0)
    ⟨.closed, 1, ⟨1, 0, 0, 0, 0⟩, some 10⟩ 1 1 2 500 [9] (by rfl) (by rfl)
  refine ⟨h.1, ?_⟩
  have h2 := (h.2.1 (by norm_num) |>.1) (by rfl)
  simpa using h2.1

/-- `currentState` is the identity in the HALF_OPEN phase (its expiry is the
zero time). -/
theorem currentState_halfOpen (b : Breaker) (hs : b.state = .halfOpen) (t : ℚ) :
    Breaker.currentState proxySettings b t = b := by
  obtain ⟨st, g, c, e⟩ := b
  cases st with
  | closed => simp at hs
  | opened => simp at hs
  | halfOpen => rfl

/-- With `MaxRequests = 1`, a HALF_OPEN breaker that has already admitted a
probe rejects any further attempt with `ErrTooManyRequests`, unchanged. -/
theorem beforeRequest_halfOpen_limit (b : Breaker) (t : ℚ) (hs : b.state = .halfOpen)
    (hreq : 1 ≤ b.counts.requests) :
    Breaker.beforeRequest proxySettings b t = (b, .error .tooManyRequests) := by
  obtain ⟨st, g, c, e⟩ := b
  cases st with
  | closed => simp at hs
  | opened => simp at hs
  | halfOpen =>
      simp only [Breaker.beforeRequest, Breaker.currentState, proxySettings]
      rw [if_pos (by exact hreq)]

/-- C3: in the HALF_OPEN phase at most 1 probe is allowed through
concurrently — a HALF_OPEN breaker with a probe already counted rejects any
further attempt with the half-open-limit error without touching the breaker,
`ProxyJSON` surfaces that rejection as HTTP 503 with the half-open-limit
message (distinct from the breaker-open message) without contacting the
upstream, and an attempt the HALF_OPEN breaker does admit was the only one
in flight (the request count goes 0 → 1, and 1 is the limit). -/
theorem c3_half_open_limit :
    (∀ (b : Breaker) (t : ℚ), b.state = .halfOpen → 1 ≤ b.counts.requests →
      Breaker.beforeRequest proxySettings b t = (b, .error .tooManyRequests)) ∧
    (∀ (b : Breaker) (tB tA : ℚ) (up : Upstream), b.state = .halfOpen →
      1 ≤ b.counts.requests →
      proxyJSON proxySettings b tB tA up = ⟨b, 503, .text halfOpenLimitMsg, false⟩) ∧
    (∀ (b b' : Breaker) (t : ℚ) (g : Nat), b.state = .halfOpen →
      Breaker.beforeRequest proxySettings b t = (b', .ok g) →
      b.counts.requests = 0 ∧ b'.counts.requests = 1) ∧
    halfOpenLimitMsg ≠ openStateMsg := by
  refine ⟨fun b t hs hreq => beforeRequest_halfOpen_limit b t hs hreq, ?_, ?_, by decide⟩
  · intro b tB tA up hs hreq
    unfold proxyJSON
    rw [beforeRequest_halfOpen_limit b tB hs hreq]
  · intro b b' t g hs hB
    obtain ⟨st, gg, c, e⟩ := b
    cases st with
    | closed => simp at hs
    | opened => simp at hs
    | halfOpen =>
        simp only [Breaker.beforeRequest, Breaker.currentState, proxySettings] at hB
        by_cases hreq : 1 ≤ c.requests
        · rw [if_pos hreq] at hB
          simp at hB
        · rw [if_neg hreq] at hB
          have hz : c.requests = 0 := by omega
          simp only [Prod.mk.injEq] at hB
          obtain ⟨hb', _⟩ := hB
          refine ⟨hz, ?_⟩
          rw [← hb']
          simp [Counts.onRequest, hz]

/-- C3 witness: trip a fresh breaker with three quick failures, let the 30 s
cooldown pass, admit the single probe at 40 s; a concurrent second attempt
at 41 s is rejected with `ErrTooManyRequests` and surfaced as 503 with the
half-open-limit message, upstream untouched. -/
theorem c3_witness :
    (Breaker.beforeRequest proxySettings
        (Breaker.beforeRequest proxySettings
          (callSeq proxySettings (newBreaker proxySettings 0)
            [(1, .transportError), (2, .transportError), (3, .transportError)]).1 40).1 41 =
      ((Breaker.beforeRequest proxySettings
          (callSeq proxySettings (newBreaker proxySettings 0)
            [(1, .transportError), (2, .transportError), (3, .transportError)]).1 40).1,
        .error .tooManyRequests)) ∧
    proxyJSON proxySettings
        (Breaker.beforeRequest proxySettings
          (callSeq proxySettings (newBreaker proxySettings 0)
            [(1, .transportError), (2, .transportError), (3, .transportError)]).1 40).1 41 41
        (.response 200 []) =
      ⟨(Breaker.beforeRequest proxySettings
          (callSeq proxySettings (newBreaker proxySettings 0)
            [(1, .transportError), (2, .transportError), (3, .transportError)]).1 40).1, 503,
        .text halfOpenLimitMsg, false⟩ :=
  ⟨c3_half_open_limit.1 _ 41 (by decide) (by decide),
   c3_half_open_limit.2.1 _ 41 41 (.response 200 []) (by decide) (by decide)⟩

/-- `List.find?` returns the element at the first position satisfying the
predicate. -/
theorem find?_first {α : Type _} (p : α → Bool) (l : List α) :
    ∀ (k : Nat) (hk : k < l.length),
      p (l.get ⟨k, hk⟩) = true →
      (∀ (j : Nat) (hj : j < k), p (l.get ⟨j, Nat.lt_trans hj hk⟩) = false) →
      l.find? p = some (l.get ⟨k, hk⟩) := by
  induction l with
  | nil => intro k hk; simp at hk
  | cons a tl ih =>
      intro k hk hp hfirst
      cases k with
      | zero =>
          rw [List.find?_cons_of_pos _ (by simpa using hp)]
          rfl
      | succ k =>
          have ha : p a = false := by simpa using hfirst 0 (Nat.succ_pos k)
          rw [List.find?_cons_of_neg _ (by simp [ha])]
          have hk' : k < tl.length := by simpa using hk
          have hp' : p (tl.get ⟨k, hk'⟩) = true := by simpa using hp
          have hfirst' : ∀ (j : Nat) (hj : j < k),
              p (tl.get ⟨j, Nat.lt_trans hj hk'⟩) = false := by
            intro j hj
            have := hfirst (j + 1) (by omega)
            simpa using this
          rw [ih k hk' hp' hfirst']
          simp

/-- C4, counterexample: for a single UP instance that declares the home-page
URL `"http://a:1/"`, `ResolveBaseURL` does not return the declared home-page
URL — it returns it with the trailing slash stripped. -/
theorem c4_counterexample :
    resolveBaseURL [⟨"UP", "http://a:1/", "", ⟨0⟩⟩] = .ok "http://a:1" ∧
    ("http://a:1" : String) ≠ "http://a:1/" :=
  ⟨by rfl, by decide⟩

/-- C4 (amended): `ResolveBaseURL` selects the first instance whose status
equals "UP" case-insensitively; if no instance is UP it selects the first
instance in the list; if the list is empty it returns an error. For the
chosen instance it returns the declared home-page URL with any trailing
slashes stripped when the declared URL is non-empty, otherwise synthesizes
`http://{ip}:{port}` when both ip and port are present (non-empty and
non-zero), otherwise returns an error. -/
theorem c4_amended_resolve_policy (l : List EurekaInstance) :
    (l = [] → resolveBaseURL l = .error .noInstances) ∧
    (∀ (k : Nat) (hk : k < l.length),
      equalFold (l.get ⟨k, hk⟩).status "UP" = true →
      (∀ (j : Nat) (hj : j < k), equalFold (l.get ⟨j, Nat.lt_trans hj hk⟩).status "UP" = false) →
      chooseInstance l = some (l.get ⟨k, hk⟩)) ∧
    ((∀ (k : Nat) (hk : k < l.length), equalFold (l.get ⟨k, hk⟩).status "UP" = false) →
      chooseInstance l = l.head?) ∧
    (∀ inst, chooseInstance l = some inst →
      (inst.homePageURL ≠ "" → resolveBaseURL l = .ok (trimRightSlash inst.homePageURL)) ∧
      (inst.homePageURL = "" → inst.ipAddr ≠ "" → inst.port.value ≠ 0 →
        resolveBaseURL l = .ok ("http://" ++ inst.ipAddr ++ ":" ++ toString inst.port.value)) ∧
      (inst.homePageURL = "" → (inst.ipAddr = "" ∨ inst.port.value = 0) →
        resolveBaseURL l = .error .missingURLFields)) := by
  refine ⟨?_, ?_, ?_, ?_⟩
  · intro h
    subst h
    rfl
  · intro k hk hp hfirst
    unfold chooseInstance
    rw [find?_first _ l k hk hp hfirst]
  · intro hnone
    have hfind : l.find? (fun inst => equalFold inst.status "UP") = none := by
      rw [List.find?_eq_none]
      intro x hx
      obtain ⟨i, hi⟩ := List.mem_iff_get.mp hx
      intro hpx
      have := hnone i.1 i.2
      rw [hi] at this
      simp [this] at hpx
    unfold chooseInstance
    rw [hfind]
  · intro inst hch
    unfold resolveBaseURL
    rw [hch]
    dsimp only
    refine ⟨?_, ?_, ?_⟩
    · intro hne
      rw [if_pos hne]
    · intro hemp hip hport
      rw [if_neg (by simp [hemp]), if_pos ⟨hip, hport⟩]
    · intro hemp hor
      rw [if_neg (by simp [hemp]), if_neg ?_]
      rintro ⟨hip, hport⟩
      rcases hor with h | h
      · exact hip h
      · exact hport h

/-- C4 amended-claim witness: the spec's tie-break example — a DOWN instance
followed by two UP instances: the first UP instance (home page
`http://a`) is chosen, never the second UP one or the DOWN one. -/
theorem c4_witness :
    chooseInstance
        [⟨"DOWN", "http://d", "", ⟨0⟩⟩, ⟨"UP", "http://a", "", ⟨0⟩⟩,
          ⟨"UP", "http://b", "", ⟨0⟩⟩] =
      some ⟨"UP", "http://a", "", ⟨0⟩⟩ ∧
    resolveBaseURL
        [⟨"DOWN", "http://d", "", ⟨0⟩⟩, ⟨"UP", "http://a", "", ⟨0⟩⟩,
          ⟨"UP", "http://b", "", ⟨0⟩⟩] =
      .ok "http://a" := by
  have hch := (c4_amended_resolve_policy
      [⟨"DOWN", "http://d", "", ⟨0⟩⟩, ⟨"UP", "http://a", "", ⟨0⟩⟩,
        ⟨"UP", "http://b", "", ⟨0⟩⟩]).2.1 1 (by decide) (by decide)
    (fun j hj => by
      interval_cases j
      exact (by decide : equalFold "DOWN" "UP" = false))
  have hres := ((c4_amended_resolve_policy
      [⟨"DOWN", "http://d", "", ⟨0⟩⟩, ⟨"UP", "http://a", "", ⟨0⟩⟩,
        ⟨"UP", "http://b", "", ⟨0⟩⟩]).2.2.2 _ hch).1 (by decide)
  exact ⟨hch, hres⟩

/-- The `/agent` handler with an empty effective base URL: 500, no dispatch. -/
theorem agentHandler_noBase (staticURL : String) (resolved : Option String)
    (body : List Nat) (b : Breaker) (tB tA : ℚ) (up : Upstream)
    (h : effectiveBase staticURL resolved = "") :
    agentHandler proxySettings b staticURL resolved body tB tA up =
      ⟨b, 500, .text noBaseMsg, none, none, false⟩ := by
  simp [agentHandler, agentPlan, agentPlanAt, h]

/-- The `/agent` handler with a non-empty effective base URL dispatches the
proxied call to `base ++ "/recommendations"` with the blank-coerced body. -/
theorem agentHandler_dispatch (staticURL : String) (resolved : Option String)
    (body : List Nat) (b : Breaker) (tB tA : ℚ) (up : Upstream)
    (h : effectiveBase staticURL resolved ≠ "") :
    agentHandler proxySettings b staticURL resolved body tB tA up =
      ⟨(proxyJSON proxySettings b tB tA up).breaker,
        (proxyJSON proxySettings b tB tA up).status,
        (proxyJSON proxySettings b tB tA up).body,
        some (effectiveBase staticURL resolved ++ "/recommendations"),
        some (if (goTrimSpaceBytes body).length = 0 then jsonEmptyObject else body),
        (proxyJSON proxySettings b tB tA up).contactedUpstream⟩ := by
  simp [agentHandler, agentPlan, agentPlanAt, h]

/-- C5, counterexample: a registry response whose chosen UP instance declares
home-page URL `"/"` makes `ResolveBaseURL` succeed with the empty string;
the `/agent` handler then overwrites the non-empty static fallback with it
and fails the request with HTTP 500 and no dispatch — even though resolution
did not fail and the static base URL is non-empty. -/
theorem c5_counterexample :
    resolutionOutcome [⟨"UP", "/", "10.0.0.1", ⟨7⟩⟩] = some "" ∧
    (agentHandler proxySettings (newBreaker proxySettings 0) "http://static-agent"
        (resolutionOutcome [⟨"UP", "/", "10.0.0.1", ⟨7⟩⟩]) [65] 1 1
        (.response 200 [1])).status = 500 ∧
    (agentHandler proxySettings (newBreaker proxySettings 0) "http://static-agent"
        (resolutionOutcome [⟨"UP", "/", "10.0.0.1", ⟨7⟩⟩]) [65] 1 1
        (.response 200 [1])).target = none ∧
    (agentHandler proxySettings (newBreaker proxySettings 0) "http://static-agent"
        (resolutionOutcome [⟨"UP", "/", "10.0.0.1", ⟨7⟩⟩]) [65] 1 1
        (.response 200 [1])).respBody = .text noBaseMsg ∧
    ("http://static-agent" : String) ≠ "" := by
  decide

/-- C5 (amended): if registry resolution fails, the pipeline uses the
statically configured base URL without surfacing the resolution error; the
request fails with HTTP 500 ("no agent service base url", without any
dispatch) exactly when the effective base URL — the resolved URL when
resolution succeeded, else the static one — is empty. (Resolution can
succeed with an empty URL, e.g. a declared home page of "/", so a non-empty
static fallback alone does not preclude the 500.) -/
theorem c5_amended_fallback (staticURL : String) (resolved : Option String)
    (body : List Nat) (b : Breaker) (tB tA : ℚ) (up : Upstream) :
    (resolved = none → effectiveBase staticURL resolved = staticURL) ∧
    ((agentHandler proxySettings b staticURL resolved body tB tA up).target = none ↔
      effectiveBase staticURL resolved = "") ∧
    (effectiveBase staticURL resolved = "" →
      agentHandler proxySettings b staticURL resolved body tB tA up =
        ⟨b, 500, .text noBaseMsg, none, none, false⟩) ∧
    (effectiveBase staticURL resolved ≠ "" →
      (agentHandler proxySettings b staticURL resolved body tB tA up).target =
        some (effectiveBase staticURL resolved ++ "/recommendations") ∧
      (agentHandler proxySettings b staticURL resolved body tB tA up).status =
        (proxyJSON proxySettings b tB tA up).status ∧
      (agentHandler proxySettings b staticURL resolved body tB tA up).respBody =
        (proxyJSON proxySettings b tB tA up).body ∧
      (agentHandler proxySettings b staticURL resolved body tB tA up).breaker =
        (proxyJSON proxySettings b tB tA up).breaker) := by
  refine ⟨fun h => by rw [h]; rfl, ?_, ?_, ?_⟩
  · by_cases hbase : effectiveBase staticURL resolved = ""
    · rw [agentHandler_noBase staticURL resolved body b tB tA up hbase]
      simp [hbase]
    · rw [agentHandler_dispatch staticURL resolved body b tB tA up hbase]
      simp [hbase]
  · intro hbase
    exact agentHandler_noBase staticURL resolved body b tB tA up hbase
  · intro hbase
    rw [agentHandler_dispatch staticURL resolved body b tB tA up hbase]
    exact ⟨rfl, rfl, rfl, rfl⟩

/-- C5 amended-claim witness: failed resolution with a non-empty static URL
dispatches to the static target; failed resolution with an empty static URL
yields the 500 with no dispatch. -/
theorem c5_witness :
    (agentHandler proxySettings (newBreaker proxySettings 0) "http://fallback" none [65] 1 1
        (.response 200 [2])).target = some ("http://fallback" ++ "/recommendations") ∧
    agentHandler proxySettings (newBreaker proxySettings 0) "" none [65] 1 1
        (.response 200 [2]) =
      ⟨newBreaker proxySettings 0, 500, .text noBaseMsg, none, none, false⟩ :=
  ⟨((c5_amended_fallback "http://fallback" none [65] (newBreaker proxySettings 0) 1 1
      (.response 200 [2])).2.2.2 (by decide)).1,
   (c5_amended_fallback "" none [65] (newBreaker proxySettings 0) 1 1
      (.response 200 [2])).2.2.1 (by decide)⟩

/-- C6, counterexample: a body consisting of a single space (non-empty) is
not forwarded verbatim — the handler coerces every blank (whitespace-only)
body to `"{}"`. -/
theorem c6_counterexample :
    (agentHandler proxySettings (newBreaker proxySettings 0) "http://agent" none [32] 1 1
        (.response 200 [1])).sentBody = some [123, 125] ∧
    ([32] : List Nat) ≠ [] ∧
    (some ([123, 125] : List Nat)) ≠ some [32] := by
  decide

/-- C6 (amended): for every POST to `/agent` that reaches dispatch, a body
that is empty or consists only of (ASCII) whitespace is coerced to the JSON
object `{}` before forwarding to the downstream `/recommendations` endpoint;
every other body is forwarded verbatim. -/
theorem c6_amended_body_coercion (staticURL : String) (resolved : Option String)
    (body : List Nat) (b : Breaker) (tB tA : ℚ) (up : Upstream)
    (hbase : effectiveBase staticURL resolved ≠ "") :
    (goTrimSpaceBytes body = [] →
      (agentHandler proxySettings b staticURL resolved body tB tA up).sentBody =
        some jsonEmptyObject) ∧
    (goTrimSpaceBytes body ≠ [] →
      (agentHandler proxySettings b staticURL resolved body tB tA up).sentBody = some body) := by
  rw [agentHandler_dispatch staticURL resolved body b tB tA up hbase]
  constructor
  · intro h
    simp [h]
  · intro h
    simp [List.length_eq_zero, h]

/-- C6 amended-claim witness: a whitespace-only body (space, tab) is coerced
to `"{}"`; the body `[65]` is forwarded verbatim. -/
theorem c6_witness :
    (agentHandler proxySettings (newBreaker proxySettings 0) "http://agent" none [32, 9] 1 1
        (.response 200 [1])).sentBody = some jsonEmptyObject ∧
    (agentHandler proxySettings (newBreaker proxySettings 0) "http://agent" none [65] 1 1
        (.response 200 [1])).sentBody = some [65] :=
  ⟨(c6_amended_body_coercion "http://agent" none [32, 9] (newBreaker proxySettings 0) 1 1
      (.response 200 [1]) (by decide)).1 (by decide),
   (c6_amended_body_coercion "http://agent" none [65] (newBreaker proxySettings 0) 1 1
      (.response 200 [1]) (by decide)).2 (by decide)⟩

set_option maxRecDepth 10000 in
/-- C7, counterexample: `/health` sits behind the rate-limit middleware
(`cmd/api-gateway/main.go` chains `rateLimiter.Middleware(mux)`), so a
client that has exhausted its bucket gets 429 from a GET `/health`: the
201st of 201 immediate GET `/health` requests from one client is answered
429 with the rate-limit body, not 200 `{"status":"ok"}`. -/
theorem c7_counterexample :
    (runGateway demoCfg initialState (List.replicate 201 healthInput)).2.getLast? =
      some ⟨429, .text rateLimitBody, false⟩ ∧
    healthInput.req.path = "/health" ∧ healthInput.req.method = "GET" ∧
    (⟨429, .text rateLimitBody, false⟩ : StepOutput) ≠ ⟨200, .text healthBody, false⟩ := by
  decide

/-- C7 (amended): every request for `/health` that passes the per-client
rate-limit check is answered 200 with body `{"status":"ok"}`, regardless of
the method, the client, the breaker or any other gateway state; a
rate-limited client instead receives the middleware's 429. -/
theorem c7_amended_health (cfg : GatewayConfig) (gs : GatewayState) (inp : StepInput)
    (hpath : inp.req.path = "/health")
    (hallow : (limiterAllow limiterRL (bucketOf gs (getIP inp.req)) inp.now).1 = true) :
    (gatewayStep cfg gs inp).2 = ⟨200, .text healthBody, false⟩ := by
  simp only [gatewayStep]
  rw [hallow]
  simp only [if_true]
  simp [routeRequest, hpath]

/-- C7 amended-claim witness: a fresh client's GET `/health` at 10 s is
answered 200 `{"status":"ok"}`. -/
theorem c7_witness :
    (gatewayStep demoCfg initialState healthInput).2 = ⟨200, .text healthBody, false⟩ :=
  c7_amended_health demoCfg initialState healthInput (by decide) (by decide)

/-- `advance` never yields more than the stored tokens plus the refill for
the elapsed time. -/
theorem limiterAdvance_le (s : LimiterState) (t : ℚ) (h : s.last ≤ t) :
    limiterAdvance limiterRL s t ≤ s.tokens + 100 * (t - s.last) := by
  unfold limiterAdvance limiterRL
  rw [if_neg (not_lt.mpr h)]
  dsimp only
  split
  · next hlt => push_cast at hlt ⊢; linarith
  · exact le_refl _

/-- `advance` yields at least one token whenever the stored tokens plus the
refill amount to at least one. -/
theorem limiterAdvance_ge_one (s : LimiterState) (t : ℚ) (h : s.last ≤ t)
    (hX : 1 ≤ s.tokens + 100 * (t - s.last)) :
    1 ≤ limiterAdvance limiterRL s t := by
  unfold limiterAdvance limiterRL
  rw [if_neg (not_lt.mpr h)]
  dsimp only
  split
  · push_cast; norm_num
  · exact hX

/-- An `Allow` that succeeds consumes a token and stamps the request time. -/
theorem limiterAllow_pos (s : LimiterState) (t : ℚ)
    (hcond : (1 : Nat) ≤ limiterRL.b ∧ 0 ≤ limiterAdvance limiterRL s t - 1) :
    limiterAllow limiterRL s t = (true, ⟨limiterAdvance limiterRL s t - 1, t⟩) := by
  unfold limiterAllow
  rw [if_pos hcond]

/-- An `Allow` that fails leaves the bucket untouched. -/
theorem limiterAllow_neg (s : LimiterState) (t : ℚ)
    (hcond : ¬ ((1 : Nat) ≤ limiterRL.b ∧ 0 ≤ limiterAdvance limiterRL s t - 1)) :
    limiterAllow limiterRL s t = (false, s) := by
  unfold limiterAllow
  rw [if_neg hcond]

/-- `runAllows` produces one verdict per request instant. -/
theorem runAllows_length (times : List ℚ) :
    ∀ s : LimiterState, (runAllows limiterRL s times).1.length = times.length := by
  induction times with
  | nil => intro s; rfl
  | cons t rest ih =>
      intro s
      simp only [runAllows, List.length_cons]
      rw [ih]

/-- Potential argument: over a chronological sequence of requests confined
to `[·, bnd]`, the number of granted requests is bounded by the tokens in
the bucket plus the total refill up to `bnd`. -/
theorem allow_count_bound (bnd : ℚ) (times : List ℚ) :
    ∀ s : LimiterState, 0 ≤ s.tokens → s.last ≤ bnd →
      (∀ t ∈ times, s.last ≤ t ∧ t ≤ bnd) → List.Sorted (· ≤ ·) times →
      ((runAllows limiterRL s times).1.count true : ℚ) ≤ s.tokens + 100 * (bnd - s.last) := by
  induction times with
  | nil =>
      intro s h0 hb _ _
      simp only [runAllows, List.count_nil]
      push_cast
      nlinarith
  | cons t rest ih =>
      intro s h0 hb hmem hsort
      obtain ⟨hst, htb⟩ := hmem t (List.mem_cons_self t rest)
      rw [List.sorted_cons] at hsort
      obtain ⟨hall, hsort'⟩ := hsort
      have hadv_le := limiterAdvance_le s t hst
      simp only [runAllows]
      by_cases hcond : (1 : Nat) ≤ limiterRL.b ∧ 0 ≤ limiterAdvance limiterRL s t - 1
      · rw [limiterAllow_pos s t hcond]
        have hmem' : ∀ u ∈ rest, (⟨limiterAdvance limiterRL s t - 1, t⟩ : LimiterState).last ≤ u
            ∧ u ≤ bnd := by
          intro u hu
          exact ⟨hall u hu, (hmem u (List.mem_cons_of_mem t hu)).2⟩
        have hrec := ih ⟨limiterAdvance limiterRL s t - 1, t⟩ hcond.2 htb hmem' hsort'
        simp only [List.count_cons_self]
        have hrec' : ((runAllows limiterRL ⟨limiterAdvance limiterRL s t - 1, t⟩ rest).1.count
            true : ℚ) ≤ limiterAdvance limiterRL s t - 1 + 100 * (bnd - t) := by
          simpa using hrec
        push_cast
        linarith
      · rw [limiterAllow_neg s t hcond]
        have hmem' : ∀ u ∈ rest, s.last ≤ u ∧ u ≤ bnd := by
          intro u hu
          exact ⟨le_trans hst (hall u hu), (hmem u (List.mem_cons_of_mem t hu)).2⟩
        have hrec := ih s h0 hb hmem' hsort'
        rw [List.count_cons_of_ne (by decide : (true : Bool) ≠ false)]
        exact hrec

/-- With one request every 20 ms, a bucket holding at least one token (plus
its refill) grants every request: each grant leaves a non-negative balance
and the 20 ms refill (2 tokens) restores more than the single token each
request consumes. -/
theorem steady_allows (n : Nat) :
    ∀ (s : LimiterState) (t : ℚ), s.last ≤ t → 1 ≤ s.tokens + 100 * (t - s.last) →
      ∀ ok ∈ (runAllows limiterRL s (steadyTimes t n)).1, ok = true := by
  induction n with
  | zero =>
      intro s t _ _ ok hok
      simp [steadyTimes, runAllows] at hok
  | succ n ih =>
      intro s t hlt hinv ok hok
      have hadv : 1 ≤ limiterAdvance limiterRL s t := limiterAdvance_ge_one s t hlt hinv
      have hcond : (1 : Nat) ≤ limiterRL.b ∧ 0 ≤ limiterAdvance limiterRL s t - 1 :=
        ⟨by norm_num [limiterRL], by linarith⟩
      simp only [steadyTimes, runAllows, limiterAllow_pos s t hcond] at hok
      have hlast' : (⟨limiterAdvance limiterRL s t - 1, t⟩ : LimiterState).last ≤ t + 1 / 50 := by
        show t ≤ t + 1 / 50
        linarith
      have hinv' : 1 ≤ (⟨limiterAdvance limiterRL s t - 1, t⟩ : LimiterState).tokens +
          100 * ((t + 1 / 50) - (⟨limiterAdvance limiterRL s t - 1, t⟩ : LimiterState).last) := by
        show 1 ≤ limiterAdvance limiterRL s t - 1 + 100 * ((t + 1 / 50) - t)
        linarith
      cases hok with
      | head => rfl
      | tail _ h =>
          exact ih ⟨limiterAdvance limiterRL s t - 1, t⟩ (t + 1 / 50) hlast' hinv' ok h

set_option maxRecDepth 10000 in
/-- C8, counterexample: with burst 200 and rate 100/s, a client CAN issue
201 requests within a window of under 1 second with none rejected: 200
immediate requests at 10 s drain the bucket, and the 201st at 10.5 s is
granted from the 50 tokens refilled meanwhile — all 201 requests fall in a
0.5 s window. -/
theorem c8_counterexample :
    (∀ ok ∈ (runAllows limiterRL ⟨0, 0⟩ (List.replicate 200 10 ++ [21 / 2])).1, ok = true) ∧
    (runAllows limiterRL ⟨0, 0⟩ (List.replicate 200 10 ++ [21 / 2])).1.length = 201 ∧
    (21 : ℚ) / 2 - 10 < 1 := by
  refine ⟨by decide, by decide, by decide⟩

/-- C8 (amended): with rate 100 tokens/s and burst 200, a single client
identity issuing 201 chronological requests within a window shorter than
10 ms (over which less than one token refills) has at least one of them
rejected by `Allow` — at most 200 are granted; and a client issuing one
request every 20 ms is never rejected once the bucket holds at least one
token. -/
theorem c8_amended_rate_limits :
    (∀ (s : LimiterState) (times : List ℚ) (bnd : ℚ),
      0 ≤ s.tokens → s.tokens ≤ 200 →
      (∀ t ∈ times, s.last ≤ t ∧ t ≤ bnd) → List.Sorted (· ≤ ·) times →
      bnd < s.last + 1 / 100 → times.length = 201 →
      (runAllows limiterRL s times).1.count true ≤ 200 ∧
        false ∈ (runAllows limiterRL s times).1) ∧
    (∀ (s : LimiterState) (t0 : ℚ) (n : Nat), 1 ≤ s.tokens → s.last ≤ t0 →
      ∀ ok ∈ (runAllows limiterRL s (steadyTimes t0 n)).1, ok = true) := by
  constructor
  · intro s times bnd h0 h200 hmem hsort hwin hlen
    have hne : times ≠ [] := by
      intro h
      rw [h] at hlen
      simp at hlen
    have hsl : s.last ≤ bnd := by
      obtain ⟨t1, rest, rfl⟩ := List.exists_cons_of_ne_nil hne
      obtain ⟨h1, h2⟩ := hmem t1 (List.mem_cons_self t1 rest)
      exact le_trans h1 h2
    have hcount := allow_count_bound bnd times s h0 hsl hmem hsort
    have hlt : ((runAllows limiterRL s times).1.count true : ℚ) < 201 := by linarith
    have hle : (runAllows limiterRL s times).1.count true ≤ 200 := by
      have : (runAllows limiterRL s times).1.count true < 201 := by exact_mod_cast hlt
      omega
    refine ⟨hle, ?_⟩
    by_contra hfe
    have hall : ∀ x ∈ (runAllows limiterRL s times).1, true = x := by
      intro x hx
      cases x with
      | false => exact absurd hx hfe
      | true => rfl
    have hc := List.count_eq_length.mpr hall
    rw [runAllows_length times s, hlen] at hc
    omega
  · intro s t0 n h1 hl
    exact steady_allows n s t0 hl (by nlinarith)

set_option maxRecDepth 10000 in
/-- C8 amended-claim witness: from a full bucket, 201 simultaneous requests
grant exactly 200 and reject one; with one token and 20 ms spacing, three
requests are all granted. -/
theorem c8_witness :
    ((runAllows limiterRL ⟨200, 10⟩ (List.replicate 201 10)).1.count true ≤ 200 ∧
      false ∈ (runAllows limiterRL ⟨200, 10⟩ (List.replicate 201 10)).1) ∧
    (∀ ok ∈ (runAllows limiterRL ⟨1, 0⟩ (steadyTimes 5 3)).1, ok = true) :=
  ⟨c8_amended_rate_limits.1 ⟨200, 10⟩ (List.replicate 201 10) 10 (by norm_num) (by norm_num)
      (by decide) (by decide) (by norm_num) (by decide),
   c8_amended_rate_limits.2 ⟨1, 0⟩ 5 3 (by norm_num) (by norm_num)⟩

/-- C9: buffered calls (`ProxyJSON`) and streaming calls (`ProxyStream`)
drive the circuit breaker identically — for the same breaker state, call
instants and upstream behaviour the resulting breaker state is the same —
and in the composed gateway (one `proxy.Client`, hence one breaker, in
`GatewayState`) a mixed scenario of two streaming transport failures and one
buffered 5xx trips the single shared breaker: the subsequent buffered and
streaming attempts are both short-circuited with 503 and no upstream
contact, and the admin snapshot reports that same breaker as "open". -/
theorem c9_shared_breaker :
    (∀ (b : Breaker) (tB tA : ℚ) (up : Upstream),
      (proxyJSON proxySettings b tB tA up).breaker =
        (proxyStream proxySettings b tB tA up).breaker) ∧
    (runGateway demoCfg initialState mixedRouteScenario).1.breaker.state =
      BreakerState.opened ∧
    (runGateway demoCfg initialState mixedRouteScenario).2.map
        (fun o => (o.status, o.contactedUpstream)) =
      [(502, true), (502, true), (500, true), (503, false), (503, false), (200, false)] ∧
    (runGateway demoCfg initialState mixedRouteScenario).2.getLast? =
      some ⟨200, .snapshot "open" Counts.zero, false⟩ := by
  refine ⟨?_, by decide, by decide, by decide⟩
  intro b tB tA up
  unfold proxyJSON proxyStream
  rcases hb : Breaker.beforeRequest proxySettings b tB with ⟨b1, r⟩
  rcases r with e | g
  · cases e <;> rfl
  · cases up <;> rfl

/-- `Nat.digitChar` never produces a `'/'`. -/
theorem digitChar_ne_slash (m : Nat) : Nat.digitChar m ≠ '/' := by
  by_cases h : m < 16
  · interval_cases m <;> decide
  · have he : m = 16 + (m - 16) := by omega
    rw [he]
    simp +arith [Nat.digitChar]

/-- Characters produced by `Nat.toDigitsCore` are digits (never `'/'`),
provided the accumulator already satisfies that. -/
theorem toDigitsCore_ne_slash (b : Nat) (fuel : Nat) :
    ∀ (n : Nat) (acc : List Char), (∀ c ∈ acc, c ≠ '/') →
      ∀ c ∈ Nat.toDigitsCore b fuel n acc, c ≠ '/' := by
  induction fuel with
  | zero =>
      intro n acc hacc c hc
      simpa [Nat.toDigitsCore] using hacc c hc
  | succ fuel ih =>
      intro n acc hacc c hc
      rw [Nat.toDigitsCore] at hc
      have haccd : ∀ x ∈ Nat.digitChar (n % b) :: acc, x ≠ '/' := by
        intro x hx
        rcases List.mem_cons.mp hx with h | h
        · rw [h]; exact digitChar_ne_slash (n % b)
        · exact hacc x h
      split at hc
      · exact haccd c hc
      · exact ih (n / b) (Nat.digitChar (n % b) :: acc) haccd c hc

/-- `Nat.toDigitsCore` never shortens its accumulator. -/
theorem toDigitsCore_length_ge (b : Nat) (fuel : Nat) :
    ∀ (n : Nat) (acc : List Char), acc.length ≤ (Nat.toDigitsCore b fuel n acc).length := by
  induction fuel with
  | zero => intro n acc; simp [Nat.toDigitsCore]
  | succ fuel ih =>
      intro n acc
      rw [Nat.toDigitsCore]
      split
      · simp
      · calc acc.length ≤ (Nat.digitChar (n % b) :: acc).length := by simp
          _ ≤ _ := ih (n / b) (Nat.digitChar (n % b) :: acc)

/-- `Nat.toDigits` is never empty. -/
theorem toDigits_ne_nil (b n : Nat) : Nat.toDigits b n ≠ [] := by
  unfold Nat.toDigits
  intro h
  have h1 : (1 : Nat) ≤ (Nat.toDigitsCore b (n + 1) n []).length := by
    rw [Nat.toDigitsCore]
    split
    · simp
    · calc (1 : Nat) = ([Nat.digitChar (n % b)].length) := by simp
        _ ≤ _ := toDigitsCore_length_ge b n (n / b) [Nat.digitChar (n % b)]
  rw [h] at h1
  simp at h1

/-- No character of a rendered `Int` is a `'/'`. -/
theorem intStr_ne_slash (v : Int) : ∀ c ∈ (toString v).data, c ≠ '/' := by
  cases v with
  | ofNat m =>
      intro c hc
      exact toDigitsCore_ne_slash 10 (m + 1) m [] (by simp) c hc
  | negSucc m =>
      intro c hc
      have hdata : (toString (Int.negSucc m)).data = '-' :: Nat.toDigits 10 (m + 1) := by
        show ("-" ++ Nat.repr (m + 1)).data = _
        rw [String.data_append]
        rfl
      rw [hdata] at hc
      rcases List.mem_cons.mp hc with h | h
      · rw [h]; decide
      · exact toDigitsCore_ne_slash 10 (m + 2) (m + 1) [] (by simp) c h

/-- A rendered `Int` is never the empty string. -/
theorem intStr_ne_nil (v : Int) : (toString v).data ≠ [] := by
  cases v with
  | ofNat m => exact toDigits_ne_nil 10 m
  | negSucc m =>
      show ("-" ++ Nat.repr (m + 1)).data ≠ []
      rw [String.data_append]
      simp

/-- The head of a `dropWhile` result falsifies the predicate. -/
theorem head?_dropWhile_false {α : Type _} (p : α → Bool) (l : List α) :
    ∀ a, (l.dropWhile p).head? = some a → p a = false := by
  induction l with
  | nil => intro a h; simp [List.dropWhile] at h
  | cons x xs ih =>
      intro a h
      rw [List.dropWhile_cons] at h
      split at h
      · exact ih a h
      · next hx =>
          simp only [List.head?_cons, Option.some.injEq] at h
          rw [← h]
          simpa using hx

/-- A list whose `getLast?` is `some a` contains `a`. -/
theorem mem_of_getLast?_eq_some {α : Type _} {l : List α} {a : α}
    (h : l.getLast? = some a) : a ∈ l := by
  rw [← List.head?_reverse] at h
  have hme : a ∈ l.reverse := by
    cases hl : l.reverse with
    | nil => rw [hl] at h; simp at h
    | cons x xs =>
        rw [hl] at h
        simp only [List.head?_cons, Option.some.injEq] at h
        rw [← h]
        exact List.mem_cons_self x xs
  simpa using hme

/-- `trimRightSlash` never leaves a trailing slash. -/
theorem endsWithSlash_trimRightSlash (s : String) :
    endsWithSlash (trimRightSlash s) = false := by
  show ((s.data.reverse.dropWhile (fun c => c == '/')).reverse.getLast? == some '/') = false
  rw [List.getLast?_reverse]
  cases hh : (s.data.reverse.dropWhile (fun c => c == '/')).head? with
  | none => rfl
  | some a =>
      have hpa := head?_dropWhile_false (fun c => c == '/') s.data.reverse a hh
      have hne : a ≠ '/' := by simpa using hpa
      rw [beq_eq_false_iff_ne]
      intro hcontra
      exact hne (by simpa using hcontra)

/-- A synthesized `http://{ip}:{port}` URL never ends with a slash (its last
character is a digit or a sign character of the rendered port). -/
theorem endsWithSlash_synth (ip : String) (v : Int) :
    endsWithSlash ("http://" ++ ip ++ ":" ++ toString v) = false := by
  unfold endsWithSlash
  rw [String.data_append, List.getLast?_append]
  cases hl : (toString v).data.getLast? with
  | none => exact absurd (List.getLast?_eq_none.mp hl) (intStr_ne_nil v)
  | some c =>
      have hc : c ∈ (toString v).data := mem_of_getLast?_eq_some hl
      have hcs := intStr_ne_slash v c hc
      simp only [Option.or]
      rw [beq_eq_false_iff_ne]
      intro hcontra
      exact hcs (by simpa using hcontra)

/-- C10: every base URL the pipeline can use as a dispatch target has no
trailing slash — `ResolveBaseURL` strips trailing slashes from the chosen
home-page URL and synthesizes `http://{ip}:{port}` without one, and
`config.Load` strips trailing slashes from the static fallback and registry
URLs — so a target URL formed by appending `"/recommendations"` has no
doubled slash at the base/path join (the `//` of the scheme is inherent to
any absolute http URL). -/
theorem c10_no_trailing_slash :
    (∀ (l : List EurekaInstance) (u : String), resolveBaseURL l = .ok u →
      endsWithSlash u = false) ∧
    (∀ env : String → String, endsWithSlash (configLoad env).agentBaseURL = false ∧
      endsWithSlash (configLoad env).eurekaServerURL = false) ∧
    (∀ (env : String → String) (l : List EurekaInstance) (body : List Nat)
      (target : String) (fwd : List Nat),
      agentPlan (configLoad env).agentBaseURL (resolutionOutcome l) body =
        .dispatch target fwd →
      ∃ base : String, target = base ++ "/recommendations" ∧ endsWithSlash base = false) := by
  have hres : ∀ (l : List EurekaInstance) (u : String), resolveBaseURL l = .ok u →
      endsWithSlash u = false := by
    intro l u h
    unfold resolveBaseURL at h
    rcases hch : chooseInstance l with _ | inst
    · rw [hch] at h; simp at h
    · rw [hch] at h
      dsimp only at h
      by_cases h1 : inst.homePageURL ≠ ""
      · rw [if_pos h1] at h
        simp only [Except.ok.injEq] at h
        rw [← h]
        exact endsWithSlash_trimRightSlash inst.homePageURL
      · rw [if_neg h1] at h
        by_cases h2 : inst.ipAddr ≠ "" ∧ inst.port.value ≠ 0
        · rw [if_pos h2] at h
          simp only [Except.ok.injEq] at h
          rw [← h]
          exact endsWithSlash_synth inst.ipAddr inst.port.value
        · rw [if_neg h2] at h
          simp at h
  have hcfg : ∀ env : String → String, endsWithSlash (configLoad env).agentBaseURL = false ∧
      endsWithSlash (configLoad env).eurekaServerURL = false := by
    intro env
    constructor
    · show endsWithSlash
        (if trimRightSlash (getenvDefault env "AGENT_BASE_URL" "") = "" then
          trimRightSlash (getenvDefault env "FLASK_BASE_URL" "")
        else trimRightSlash (getenvDefault env "AGENT_BASE_URL" "")) = false
      split
      · exact endsWithSlash_trimRightSlash _
      · exact endsWithSlash_trimRightSlash _
    · exact endsWithSlash_trimRightSlash _
  refine ⟨hres, hcfg, ?_⟩
  intro env l body target fwd hd
  unfold agentPlan agentPlanAt at hd
  dsimp only at hd
  by_cases hb : effectiveBase (configLoad env).agentBaseURL (resolutionOutcome l) = ""
  · rw [if_pos hb] at hd
    simp at hd
  · rw [if_neg hb] at hd
    simp only [AgentStep.dispatch.injEq] at hd
    obtain ⟨ht, _⟩ := hd
    refine ⟨effectiveBase (configLoad env).agentBaseURL (resolutionOutcome l), ht.symm, ?_⟩
    rcases hro : resolutionOutcome l with _ | u
    · exact (hcfg env).1
    · unfold resolutionOutcome at hro
      rcases hrb : resolveBaseURL l with e | u'
      · rw [hrb] at hro; simp at hro
      · rw [hrb] at hro
        simp only [Option.some.injEq] at hro
        rw [← hro]
        exact hres l u' hrb

/-- C10 witness: a trailing-slash home page resolves without the slash, and
a dispatch target built from a trailing-slash static URL joins cleanly. -/
theorem c10_witness :
    endsWithSlash "http://a" = false ∧
    (∃ base : String, ("http://s" ++ "/recommendations" : String) = base ++ "/recommendations" ∧
      endsWithSlash base = false) :=
  ⟨c10_no_trailing_slash.1 [⟨"UP", "http://a/", "", ⟨0⟩⟩] "http://a" (by rfl),
   c10_no_trailing_slash.2.2
     (fun k => if k = "AGENT_BASE_URL" then "http://s/" else "") [] []
     ("http://s" ++ "/recommendations") jsonEmptyObject (by rfl)⟩

end ApiGateway
